import Mathlib

/-!
Verification of the mint-session orchestrator of the cyphers platform.

The definitions below are a shallow embedding of the TypeScript services:
`src/config/database.ts` (token allocation), `src/services/mint.service.ts`
(the orchestrator: start / status / payment confirmation / cancel / stats /
the generation step) and `src/services/inscribe.service.ts` (`finalizeMint`).
The Prisma store is modelled as explicit state (`Store`) threaded through
each operation; thrown HTTP errors become the `Except ApiError` result;
timestamps are naturals (milliseconds); the external generator call is a
parameter of the generation step.
-/

namespace Cyphers

/-- Mint lifecycle states, from the Prisma `MintStatus` enum. -/
inductive MintStatus where
  | PENDING
  | GENERATING
  | GENERATION_FAILED
  | AWAITING_PAYMENT
  | PAYMENT_RECEIVED
  | INSCRIBING
  | INSCRIPTION_FAILED
  | CONFIRMED
  | FAILED
deriving DecidableEq, Repr

/-- Rarity tiers, from the Prisma `RarityTier` enum. -/
inductive RarityTier where
  | LEGENDARY
  | EPIC
  | RARE
  | COMMON
deriving DecidableEq, Repr

/-- Printable status name, used in the `Invalid session status` message. -/
def statusName : MintStatus → String
  | .PENDING => "PENDING"
  | .GENERATING => "GENERATING"
  | .GENERATION_FAILED => "GENERATION_FAILED"
  | .AWAITING_PAYMENT => "AWAITING_PAYMENT"
  | .PAYMENT_RECEIVED => "PAYMENT_RECEIVED"
  | .INSCRIBING => "INSCRIBING"
  | .INSCRIPTION_FAILED => "INSCRIPTION_FAILED"
  | .CONFIRMED => "CONFIRMED"
  | .FAILED => "FAILED"

/-- Terminal states of the orchestrator state machine (spec section 4.6). -/
def isTerminal : MintStatus → Bool
  | .CONFIRMED => true
  | .GENERATION_FAILED => true
  | .INSCRIPTION_FAILED => true
  | .FAILED => true
  | _ => false

/-- The single `TokenCounter` row (`lastTokenId`, `maxSupply`). -/
structure TokenCounter where
  lastTokenId : Nat
  maxSupply : Nat
deriving DecidableEq, Repr

/-- One `MintSession` row. Log-only columns (`retryCount`, audit
timestamps) that no modelled operation reads are omitted. -/
structure MintSession where
  sessionId : String
  userId : String
  dogeAddress : String
  status : MintStatus
  progress : Nat
  statusMessage : Option String
  paymentAddress : Option String
  paymentAmount : Nat
  paymentTxHash : Option String
  paymentConfirmedAt : Option Nat
  cypherId : Option String
  assignedTokenId : Option Nat
  errorMessage : Option String
  errorCode : Option String
  expiresAt : Nat
  completedAt : Option Nat
deriving DecidableEq, Repr

/-- One `CypherNFT` row. `traitMetadata` is modelled as a string-valued
JSON record (an association list); only its `name` entry is ever read. -/
structure CypherNFT where
  id : String
  tokenId : Nat
  rarityTier : RarityTier
  rarityRole : String
  maskType : String
  materialType : String
  encryptionType : String
  glitchLevel : String
  backgroundStyle : String
  accentColor : String
  traitMetadata : List (String × String)
  generationPrompt : Option String
  inscriptionId : Option String
  inscriptionTx : Option String
  inscribedAt : Option Nat
  status : MintStatus
  ownerAddress : String
deriving DecidableEq, Repr

/-- Trait set returned by the external generator (`generateCypher`). -/
structure GenTraits where
  rarityTier : RarityTier
  rarityRole : String
  maskType : String
  materialType : String
  encryptionType : String
  glitchLevel : String
  backgroundStyle : String
  accentColor : String
deriving DecidableEq, Repr

/-- Result of the external generator call: traits, metadata and prompt. -/
structure GenResult where
  traits : GenTraits
  metadata : List (String × String)
  prompt : String
deriving DecidableEq, Repr

/-- The persistent store: session rows, NFT rows, the counter row and the
append-only `MintLog` table (keyed here by the session identifier). -/
structure Store where
  sessions : List MintSession
  cyphers : List CypherNFT
  counter : Option TokenCounter
  logs : List (String × String)
deriving DecidableEq, Repr

/-- Thrown HTTP-layer errors (`NotFoundError`, `BadRequestError`,
`ConflictError`) plus plain thrown `Error`s, which surface as fatal. -/
inductive ApiError where
  | notFound (msg : String)
  | badRequest (msg : String)
  | conflict (msg : String)
  | fatal (msg : String)
deriving DecidableEq, Repr

/-- Decidable equality of results, so witnesses can be checked by
evaluation. -/
instance exceptDecEq {ε α : Type} [DecidableEq ε] [DecidableEq α] :
    DecidableEq (Except ε α) := fun a b =>
  match a, b with
  | .ok x, .ok y =>
    if h : x = y then .isTrue (by rw [h])
    else .isFalse (fun hc => h (Except.ok.inj hc))
  | .ok _, .error _ => .isFalse (fun hc => Except.noConfusion hc)
  | .error _, .ok _ => .isFalse (fun hc => Except.noConfusion hc)
  | .error e, .error f =>
    if h : e = f then .isTrue (by rw [h])
    else .isFalse (fun hc => h (Except.error.inj hc))

/-- Client errors of the error taxonomy: bad request, not found, conflict. -/
def isClientError {α : Type} : Except ApiError α → Bool
  | .error (.notFound _) => true
  | .error (.badRequest _) => true
  | .error (.conflict _) => true
  | _ => false

/-- True exactly when the result is `ok`. -/
def resultOk {α : Type} : Except ApiError α → Bool
  | .ok _ => true
  | .error _ => false

/-- JavaScript truthiness of a nullable string column (`null` and the
empty string are falsy). -/
def jsTruthy : Option String → Bool
  | none => false
  | some s => s ≠ ""

/-- `prisma.mintSession.findUnique({ where: { sessionId } })`. -/
def findSession (st : Store) (sid : String) : Option MintSession :=
  st.sessions.find? (fun s => s.sessionId == sid)

/-- Relation lookup for a `CypherNFT` row by its primary key. -/
def findCypher (st : Store) (cid : String) : Option CypherNFT :=
  st.cyphers.find? (fun c => c.id == cid)

/-- The `include: { cypher: true }` relation of a session row. -/
def linkedCypher (st : Store) (s : MintSession) : Option CypherNFT :=
  s.cypherId.bind (findCypher st)

/-- `prisma.mintSession.update({ where: { sessionId }, data })`:
rewrites the rows whose `sessionId` matches. -/
def setSession (st : Store) (sid : String) (f : MintSession → MintSession) : Store :=
  { st with sessions := st.sessions.map (fun s => if s.sessionId == sid then f s else s) }

/-- `prisma.mintLog.create`: appends one audit row. -/
def addLog (st : Store) (sid msg : String) : Store :=
  { st with logs := st.logs ++ [(sid, msg)] }

/-- Session expiration time: 30 minutes, in milliseconds. -/
def SESSION_EXPIRY_MS : Nat := 30 * 60 * 1000

/-- `getNextTokenId` of `src/config/database.ts`: inside one transaction,
read the counter row (throwing when it is missing), return `null` when
`lastTokenId >= maxSupply`, else increment the counter and return the
incremented value. -/
def getNextTokenId (c : Option TokenCounter) :
    Except String (Option Nat) × Option TokenCounter :=
  match c with
  | none => (.error "Token counter not initialized", none)
  | some ctr =>
    if ctr.maxSupply ≤ ctr.lastTokenId then
      (.ok none, some ctr)
    else
      (.ok (some (ctr.lastTokenId + 1)), some { ctr with lastTokenId := ctr.lastTokenId + 1 })

/-- Runs `n` consecutive calls of `getNextTokenId`, collecting the
successfully issued identifiers in order. -/
def allocRun : Nat → Option TokenCounter → List Nat × Option TokenCounter
  | 0, c => ([], c)
  | n + 1, c =>
    match getNextTokenId c with
    | (Except.ok (some id), c1) =>
      let r := allocRun n c1
      (id :: r.1, r.2)
    | (Except.ok none, c1) => allocRun n c1
    | (Except.error _, c1) => allocRun n c1

/-- The `where` clause of the active-session check in `startMintSession`:
same user, status in PENDING / GENERATING / AWAITING_PAYMENT, and
`expiresAt` strictly in the future. -/
def blocksNewStart (userId : String) (now : Nat) (s : MintSession) : Bool :=
  s.userId == userId &&
    (s.status == MintStatus.PENDING || s.status == MintStatus.GENERATING ||
      s.status == MintStatus.AWAITING_PAYMENT) &&
    decide (now < s.expiresAt)

/-- Summary of the linked NFT embedded in a status response. -/
structure CypherSummary where
  tokenId : Nat
  rarityTier : RarityTier
  rarityRole : String
  name : Option String
deriving DecidableEq, Repr

/-- The `MintSessionResponse` shape returned by the public operations. -/
structure MintSessionResponse where
  sessionId : String
  status : MintStatus
  statusMessage : String
  progress : Nat
  paymentAddress : Option String
  paymentAmount : Option Nat
  cypher : Option CypherSummary
  expiresAt : Nat
deriving DecidableEq, Repr

/-- Builds the response of `getSessionStatus` from a session row and its
(optionally) linked NFT: payment fields only when `paymentAddress` is
truthy, NFT summary only when the relation is present. -/
def sessionResponse (s : MintSession) (cy : Option CypherNFT) : MintSessionResponse :=
  { sessionId := s.sessionId
    status := s.status
    statusMessage := s.statusMessage.getD ""
    progress := s.progress
    paymentAddress := if jsTruthy s.paymentAddress then s.paymentAddress else none
    paymentAmount := if jsTruthy s.paymentAddress then some s.paymentAmount else none
    cypher := cy.map (fun c =>
      { tokenId := c.tokenId
        rarityTier := c.rarityTier
        rarityRole := c.rarityRole
        name := c.traitMetadata.lookup "name" })
    expiresAt := s.expiresAt }

/-- The PENDING session row that `startMintSession` creates: progress 0,
fixed price, assigned token id and a 30-minute expiry. -/
def newSessionRow (newSessionId userId dogeAddress : String)
    (priceDoge tokenId expiresAt : Nat) : MintSession :=
  { sessionId := newSessionId
    userId := userId
    dogeAddress := dogeAddress
    status := .PENDING
    progress := 0
    statusMessage := some "Session started, initializing..."
    paymentAddress := none
    paymentAmount := priceDoge
    paymentTxHash := none
    paymentConfirmedAt := none
    cypherId := none
    assignedTokenId := some tokenId
    errorMessage := none
    errorCode := none
    expiresAt := expiresAt
    completedAt := none }

/-- The immediate response of `startMintSession`: PENDING with
progress 5. -/
def startResponse (newSessionId : String) (expiresAt : Nat) : MintSessionResponse :=
  { sessionId := newSessionId
    status := .PENDING
    statusMessage := "Session started, generating your unique Cypher..."
    progress := 5
    paymentAddress := none
    paymentAmount := none
    cypher := none
    expiresAt := expiresAt }

/-- `startMintSession`: reject Conflict when the caller has an active
session, allocate a token (propagating the missing-counter throw, and
rejecting BadRequest on the sold-out `null`), persist a PENDING session
with progress 0, log, and answer with progress 5. The detached
generation task is modelled separately as `processGeneration`. -/
def startMintSession (st : Store) (userId dogeAddress : String) (now : Nat)
    (newSessionId : String) (priceDoge : Nat) :
    Except ApiError MintSessionResponse × Store :=
  if (st.sessions.find? (blocksNewStart userId now)).isSome then
    (.error (.conflict "You already have an active minting session"), st)
  else
    match getNextTokenId st.counter with
    | (.error m, _) => (.error (.fatal m), st)
    | (.ok none, _) =>
      (.error (.badRequest "All Cyphers have been minted - collection sold out!"), st)
    | (.ok (some tokenId), counter1) =>
      let st1 : Store :=
        { st with
            counter := counter1
            sessions := st.sessions
              ++ [newSessionRow newSessionId userId dogeAddress priceDoge tokenId
                    (now + SESSION_EXPIRY_MS)] }
      let st2 := addLog st1 newSessionId ("Mint session started for token #" ++ toString tokenId)
      (.ok (startResponse newSessionId (now + SESSION_EXPIRY_MS)), st2)

/-- The `CypherNFT` row created by the generation step on success. -/
def mkGeneratedCypher (id : String) (tokenId : Nat) (ownerAddress : String)
    (r : GenResult) : CypherNFT :=
  { id := id
    tokenId := tokenId
    rarityTier := r.traits.rarityTier
    rarityRole := r.traits.rarityRole
    maskType := r.traits.maskType
    materialType := r.traits.materialType
    encryptionType := r.traits.encryptionType
    glitchLevel := r.traits.glitchLevel
    backgroundStyle := r.traits.backgroundStyle
    accentColor := r.traits.accentColor
    traitMetadata := r.metadata
    generationPrompt := some r.prompt
    inscriptionId := none
    inscriptionTx := none
    inscribedAt := none
    status := .AWAITING_PAYMENT
    ownerAddress := ownerAddress }

/-- The `updateSession` patch applied before the generator call. -/
def generatingPatch (s : MintSession) : MintSession :=
  { s with status := .GENERATING
           statusMessage := some "Generating your unique encrypted identity..."
           progress := 10 }

/-- The `updateSession` patch applied when the generator call fails. -/
def genFailedPatch (e : String) (s : MintSession) : MintSession :=
  { s with status := .GENERATION_FAILED
           statusMessage := some "Generation failed. Please try again."
           errorMessage := some e }

/-- The session update applied when the generator call succeeds. -/
def genSuccessPatch (newCypherId paymentAddress : String) (s : MintSession) : MintSession :=
  { s with cypherId := some newCypherId
           status := .AWAITING_PAYMENT
           statusMessage := some "Cypher generated! Awaiting payment..."
           progress := 50
           paymentAddress := some paymentAddress }

/-- The expiry `updateSession` patch of `getSessionStatus`. -/
def expirePatch (s : MintSession) : MintSession :=
  { s with status := .FAILED
           statusMessage := some "Session expired"
           errorMessage := some "Session timed out" }

/-- The payment update of `processPaymentConfirmation`. -/
def paymentPatch (txHash : String) (now : Nat) (s : MintSession) : MintSession :=
  { s with paymentTxHash := some txHash
           paymentConfirmedAt := some now
           status := .PAYMENT_RECEIVED
           statusMessage := some "Payment received! Starting inscription..."
           progress := 60 }

/-- The cancellation update of `cancelSession`. -/
def cancelPatch (s : MintSession) : MintSession :=
  { s with status := .FAILED, statusMessage := some "Cancelled by user" }

/-- `processGeneration`, the detached generation step: mark GENERATING,
call the generator (its outcome is the `genResult` parameter); on success
create the NFT row, then set the session to AWAITING_PAYMENT with the NFT
id, a payment address and progress 50, and log; on failure set
GENERATION_FAILED with the captured message. When the session row is
missing every update throws and the swallowed error leaves the store
unchanged. -/
def processGeneration (st : Store) (sessionId : String) (tokenId : Nat)
    (ownerAddress : String) (genResult : Except String GenResult)
    (newCypherId paymentAddress : String) : Store :=
  if (findSession st sessionId).isNone then
    st
  else
    let st1 := setSession st sessionId generatingPatch
    match genResult with
    | .error e => setSession st1 sessionId (genFailedPatch e)
    | .ok r =>
      let cy := mkGeneratedCypher newCypherId tokenId ownerAddress r
      let st2 := { st1 with cyphers := st1.cyphers ++ [cy] }
      let st3 := setSession st2 sessionId (genSuccessPatch newCypherId paymentAddress)
      addLog st3 sessionId ("Cypher generated: " ++ r.traits.rarityRole)

/-- `getSessionStatus`: NotFound when missing; when `expiresAt` is in the
past and `completedAt` is unset, mark the session FAILED (expired) and
throw BadRequest; otherwise answer with the stored row. -/
def getSessionStatus (st : Store) (sid : String) (now : Nat) :
    Except ApiError MintSessionResponse × Store :=
  match findSession st sid with
  | none => (.error (.notFound "Minting session not found"), st)
  | some s =>
    if s.expiresAt < now ∧ s.completedAt = none then
      (.error (.badRequest "Minting session has expired"), setSession st sid expirePatch)
    else
      (.ok (sessionResponse s (linkedCypher st s)), st)

/-- `processPaymentConfirmation`: NotFound when missing, BadRequest when
the status is not AWAITING_PAYMENT or no NFT is linked; otherwise record
the payment reference, move to PAYMENT_RECEIVED with progress 60, log,
and answer through `getSessionStatus`. The detached inscription task is
not part of the synchronous transition. -/
def processPaymentConfirmation (st : Store) (sid txHash : String) (now : Nat) :
    Except ApiError MintSessionResponse × Store :=
  match findSession st sid with
  | none => (.error (.notFound "Minting session not found"), st)
  | some s =>
    if s.status ≠ MintStatus.AWAITING_PAYMENT then
      (.error (.badRequest ("Invalid session status: " ++ statusName s.status)), st)
    else
      match linkedCypher st s with
      | none => (.error (.badRequest "No Cypher associated with this session"), st)
      | some _ =>
        let st1 := setSession st sid (paymentPatch txHash now)
        let st2 := addLog st1 sid ("Payment received: " ++ txHash)
        getSessionStatus st2 sid now

/-- `cancelSession`: NotFound when missing; BadRequest when the caller is
not the owner, when the session is CONFIRMED, or when `paymentTxHash` is
truthy; otherwise set FAILED with the cancelled message. -/
def cancelSession (st : Store) (sid userId : String) :
    Except ApiError Unit × Store :=
  match findSession st sid with
  | none => (.error (.notFound "Session not found"), st)
  | some s =>
    if s.userId ≠ userId then
      (.error (.badRequest "Not authorized to cancel this session"), st)
    else if s.status = MintStatus.CONFIRMED then
      (.error (.badRequest "Cannot cancel a completed mint"), st)
    else if jsTruthy s.paymentTxHash then
      (.error (.badRequest "Cannot cancel after payment - contact support"), st)
    else
      (.ok (), setSession st sid cancelPatch)

/-- `finalizeMint` of `src/services/inscribe.service.ts`: on success set
the NFT's inscription reference and CONFIRMED status, set the session to
CONFIRMED with progress 100 and `completedAt`, and log; answer `false`
without writing when the session or its NFT is missing. -/
def finalizeMint (st : Store) (sid inscriptionId inscriptionTx : String) (now : Nat) :
    Bool × Store :=
  match findSession st sid with
  | none => (false, st)
  | some s =>
    match linkedCypher st s with
    | none => (false, st)
    | some cy =>
      let st1 : Store := { st with cyphers := st.cyphers.map (fun c =>
        if c.id == cy.id then
          { c with inscriptionId := some inscriptionId
                   inscriptionTx := some inscriptionTx
                   inscribedAt := some now
                   status := .CONFIRMED }
        else c) }
      let st2 := setSession st1 sid (fun t =>
        { t with status := .CONFIRMED
                 statusMessage := some "Cypher successfully inscribed!"
                 progress := 100
                 completedAt := some now })
      (true, addLog st2 sid ("Mint completed! Inscription: " ++ inscriptionId))

/-- The per-tier count of CONFIRMED NFT rows, as the `groupBy` computes. -/
def countConfirmedTier (st : Store) (tier : RarityTier) : Nat :=
  (st.cyphers.filter (fun c =>
    c.status == MintStatus.CONFIRMED && c.rarityTier == tier)).length

/-- The aggregate returned by `getMintStats`. -/
structure MintStats where
  totalMinted : Nat
  remaining : Int
  legendary : Nat
  epic : Nat
  rare : Nat
  common : Nat
deriving DecidableEq, Repr

/-- `getMintStats`: `totalMinted` is the counter's `lastTokenId` (0 when
the row is missing), `maxSupply` falls back to the configured value on a
missing row or a falsy 0, and the rarity breakdown counts CONFIRMED NFT
rows per tier. -/
def getMintStats (st : Store) (configMaxSupply : Nat) : MintStats :=
  let totalMinted := match st.counter with
    | some c => c.lastTokenId
    | none => 0
  let maxSupply := match st.counter with
    | some c => if c.maxSupply = 0 then configMaxSupply else c.maxSupply
    | none => configMaxSupply
  { totalMinted := totalMinted
    remaining := (maxSupply : Int) - (totalMinted : Int)
    legendary := countConfirmedTier st .LEGENDARY
    epic := countConfirmedTier st .EPIC
    rare := countConfirmedTier st .RARE
    common := countConfirmedTier st .COMMON }

/-! Concrete fixtures used by the closed witnesses and counterexamples. -/

/-- A session of identity `u` sitting in PAYMENT_RECEIVED: non-terminal,
unexpired, with a recorded payment reference. -/
def exPaySession : MintSession :=
  { sessionId := "s1"
    userId := "u"
    dogeAddress := "DUSER"
    status := .PAYMENT_RECEIVED
    progress := 60
    statusMessage := some "Payment received! Starting inscription..."
    paymentAddress := some "DPAY"
    paymentAmount := 100
    paymentTxHash := some "txabcdef1234"
    paymentConfirmedAt := some 500
    cypherId := some "c1"
    assignedTokenId := some 1
    errorMessage := none
    errorCode := none
    expiresAt := 2000000
    completedAt := none }

/-- Store holding only `exPaySession` and a healthy counter. -/
def exPayStore : Store :=
  { sessions := [exPaySession]
    cyphers := []
    counter := some { lastTokenId := 1, maxSupply := 1000 }
    logs := [] }

/-- A PENDING session of identity `u` that expires at time 1000. -/
def exPendingSession : MintSession :=
  { sessionId := "s1"
    userId := "u"
    dogeAddress := "DUSER"
    status := .PENDING
    progress := 0
    statusMessage := some "Session started, initializing..."
    paymentAddress := none
    paymentAmount := 100
    paymentTxHash := none
    paymentConfirmedAt := none
    cypherId := none
    assignedTokenId := some 1
    errorMessage := none
    errorCode := none
    expiresAt := 1000
    completedAt := none }

/-- Store holding only `exPendingSession`. -/
def exPendingStore : Store :=
  { sessions := [exPendingSession]
    cyphers := []
    counter := some { lastTokenId := 1, maxSupply := 1000 }
    logs := [] }

/-- A GENERATION_FAILED (terminal) session of identity `u`, without a
payment reference. -/
def exGenFailedSession : MintSession :=
  { sessionId := "s1"
    userId := "u"
    dogeAddress := "DUSER"
    status := .GENERATION_FAILED
    progress := 10
    statusMessage := some "Generation failed. Please try again."
    paymentAddress := none
    paymentAmount := 100
    paymentTxHash := none
    paymentConfirmedAt := none
    cypherId := none
    assignedTokenId := some 1
    errorMessage := some "upstream error"
    errorCode := none
    expiresAt := 2000000
    completedAt := none }

/-- Store holding only `exGenFailedSession`. -/
def exGenFailedStore : Store :=
  { sessions := [exGenFailedSession]
    cyphers := []
    counter := some { lastTokenId := 1, maxSupply := 1000 }
    logs := [] }

/-- A CONFIRMED session with `completedAt` set, as `finalizeMint` leaves
it. -/
def exConfirmedSession : MintSession :=
  { sessionId := "s1"
    userId := "u"
    dogeAddress := "DUSER"
    status := .CONFIRMED
    progress := 100
    statusMessage := some "Cypher successfully inscribed!"
    paymentAddress := some "DPAY"
    paymentAmount := 100
    paymentTxHash := some "txabcdef1234"
    paymentConfirmedAt := some 500
    cypherId := some "c1"
    assignedTokenId := some 1
    errorMessage := none
    errorCode := none
    expiresAt := 1000
    completedAt := some 900 }

/-- A CONFIRMED NFT row with token id 1. -/
def exConfirmedCypher : CypherNFT :=
  { id := "c1"
    tokenId := 1
    rarityTier := .RARE
    rarityRole := "Cipher Guardian"
    maskType := "lattice"
    materialType := "chrome"
    encryptionType := "AES"
    glitchLevel := "low"
    backgroundStyle := "void"
    accentColor := "teal"
    traitMetadata := [("name", "Cypher One")]
    generationPrompt := some "prompt"
    inscriptionId := some "insc1"
    inscriptionTx := some "txinsc"
    inscribedAt := some 900
    status := .CONFIRMED
    ownerAddress := "DUSER" }

/-- Store holding the CONFIRMED session and its NFT. -/
def exConfirmedStore : Store :=
  { sessions := [exConfirmedSession]
    cyphers := [exConfirmedCypher]
    counter := some { lastTokenId := 1, maxSupply := 1000 }
    logs := [] }

/-- Store with three allocated tokens but a single CONFIRMED NFT. -/
def exStatsStore : Store :=
  { sessions := []
    cyphers := [exConfirmedCypher]
    counter := some { lastTokenId := 3, maxSupply := 1000 }
    logs := [] }

/-- A concrete generator result. -/
def exGenResult : GenResult :=
  { traits :=
      { rarityTier := .EPIC
        rarityRole := "Signal Breaker"
        maskType := "mesh"
        materialType := "obsidian"
        encryptionType := "RSA"
        glitchLevel := "high"
        backgroundStyle := "grid"
        accentColor := "magenta" }
    metadata := [("name", "Cypher Two")]
    prompt := "generated prompt" }

/-- An empty store with a healthy counter. -/
def exFreshStore : Store :=
  { sessions := []
    cyphers := []
    counter := some { lastTokenId := 0, maxSupply := 1000 }
    logs := [] }

/-- An empty store whose counter row is missing. -/
def exNoCounterStore : Store :=
  { sessions := []
    cyphers := []
    counter := none
    logs := [] }

end Cyphers

namespace Cyphers

/-- Updating rows by session id and then looking the id up finds the
updated row, provided the update preserves the `sessionId` key. -/
theorem find?_update (l : List MintSession) (sid : String) (f : MintSession → MintSession)
    (hf : ∀ x, (f x).sessionId = x.sessionId) :
    (l.map (fun s => if s.sessionId == sid then f s else s)).find?
        (fun s => s.sessionId == sid)
      = (l.find? (fun s => s.sessionId == sid)).map f := by
  induction l with
  | nil => rfl
  | cons a l ih =>
    by_cases h : (a.sessionId == sid) = true
    · have hfa : ((f a).sessionId == sid) = true := by rw [hf]; exact h
      rw [List.map_cons, if_pos h,
        List.find?_cons_of_pos (p := fun s : MintSession => s.sessionId == sid) _ hfa,
        List.find?_cons_of_pos (p := fun s : MintSession => s.sessionId == sid) _ h,
        Option.map_some']
    · rw [List.map_cons, if_neg h,
        List.find?_cons_of_neg (p := fun s : MintSession => s.sessionId == sid) _ h,
        List.find?_cons_of_neg (p := fun s : MintSession => s.sessionId == sid) _ h]
      exact ih

/-- Store-level variant of `find?_update`. -/
theorem findSession_setSession (st : Store) (sid : String) (f : MintSession → MintSession)
    (hf : ∀ x, (f x).sessionId = x.sessionId) :
    findSession (setSession st sid f) sid = (findSession st sid).map f :=
  find?_update st.sessions sid f hf

/-- A key-preserving, idempotent row update is idempotent on the store. -/
theorem setSession_idem (st : Store) (sid : String) (f : MintSession → MintSession)
    (hf : ∀ x, (f x).sessionId = x.sessionId) (hff : ∀ x, f (f x) = f x) :
    setSession (setSession st sid f) sid f = setSession st sid f := by
  unfold setSession
  simp only [List.map_map]
  have h : ∀ x ∈ st.sessions,
      ((fun s => if s.sessionId == sid then f s else s) ∘
        (fun s => if s.sessionId == sid then f s else s)) x
        = (fun s => if s.sessionId == sid then f s else s) x := by
    intro x _
    by_cases h : x.sessionId = sid
    · simp [h, hf, hff]
    · simp [h]
  rw [List.map_congr_left h]

/-- Consecutive allocation: starting from `lastTokenId = j ≤ m`, a run of
`n` calls issues exactly `j+1, j+2, ...` up to the supply cap and leaves
the counter at `min (j+n) m`. -/
theorem allocRun_counter (n : Nat) : ∀ (j m : Nat), j ≤ m →
    allocRun n (some { lastTokenId := j, maxSupply := m })
      = (List.range' (j + 1) (min n (m - j)),
         some { lastTokenId := min (j + n) m, maxSupply := m }) := by
  induction n with
  | zero =>
    intro j m h
    simp [allocRun, Nat.min_eq_left h]
  | succ n ih =>
    intro j m h
    by_cases hjm : j < m
    · have hstep : getNextTokenId (some { lastTokenId := j, maxSupply := m })
          = (.ok (some (j + 1)), some { lastTokenId := j + 1, maxSupply := m }) := by
        simp [getNextTokenId, Nat.not_le.mpr hjm]
      have ihj := ih (j + 1) m hjm
      simp only [allocRun, hstep, ihj]
      have h1 : min (n + 1) (m - j) = min n (m - (j + 1)) + 1 := by omega
      have h2 : min (j + (n + 1)) m = min (j + 1 + n) m := by omega
      rw [h1, h2, List.range'_succ]
    · have hje : j = m := Nat.le_antisymm h (Nat.le_of_not_lt hjm)
      subst hje
      have hstep : getNextTokenId (some { lastTokenId := j, maxSupply := j })
          = (.ok none, some { lastTokenId := j, maxSupply := j }) := by
        simp [getNextTokenId]
      have ihj := ih j j (Nat.le_refl j)
      simp only [allocRun, hstep, ihj]
      have h1 : min (n + 1) (j - j) = 0 := by omega
      have h2 : min n (j - j) = 0 := by omega
      have h3 : min (j + n) j = j := by omega
      have h4 : min (j + (n + 1)) j = j := by omega
      simp [h1, h2, h3, h4]

/-- C1: the Token Allocator returns `lastTokenId + 1` and increments the
counter while `lastTokenId < maxSupply`, returns the sold-out sentinel
(`null`) with the counter untouched otherwise, and a run of `n`
allocations from a counter at 0 issues exactly the consecutive
identifiers 1, 2, ..., min n maxSupply, with no identifier skipped and
`lastTokenId = min n maxSupply` never exceeding `maxSupply`. -/
theorem tokenAllocatorSequential (c : TokenCounter) (n m : Nat) :
    (c.lastTokenId < c.maxSupply →
      getNextTokenId (some c)
        = (.ok (some (c.lastTokenId + 1)),
           some { c with lastTokenId := c.lastTokenId + 1 })) ∧
    (c.maxSupply ≤ c.lastTokenId → getNextTokenId (some c) = (.ok none, some c)) ∧
    (allocRun n (some { lastTokenId := 0, maxSupply := m })
      = (List.range' 1 (min n m), some { lastTokenId := min n m, maxSupply := m })) := by
  refine ⟨?_, ?_, ?_⟩
  · intro h
    simp [getNextTokenId, Nat.not_le.mpr h]
  · intro h
    simp [getNextTokenId, h]
  · have h := allocRun_counter n 0 m (Nat.zero_le m)
    simpa using h

/-- Closed instance of `tokenAllocatorSequential`: with supply 3, five
allocations issue exactly 1, 2, 3 and stop at the cap. -/
theorem tokenAllocatorSequentialWitness :
    getNextTokenId (some { lastTokenId := 0, maxSupply := 3 })
        = (.ok (some 1), some { lastTokenId := 1, maxSupply := 3 }) ∧
    allocRun 5 (some { lastTokenId := 0, maxSupply := 3 })
        = ([1, 2, 3], some { lastTokenId := 3, maxSupply := 3 }) := by
  have h := tokenAllocatorSequential { lastTokenId := 0, maxSupply := 3 } 5 3
  refine ⟨h.1 (by decide), ?_⟩
  have h3 := h.2.2
  have hmin : min 5 3 = 3 := by decide
  rw [hmin] at h3
  have hr : List.range' 1 3 = [1, 2, 3] := by decide
  rw [hr] at h3
  exact h3

end Cyphers

namespace Cyphers

/-- C2 counterexample: identity `u` holds one non-terminal
(PAYMENT_RECEIVED) session, yet `start` succeeds instead of rejecting
with Conflict, leaving `u` with two non-terminal sessions. -/
theorem startAllowsSecondNonTerminalSession :
    (exPayStore.sessions.filter
        (fun s => s.userId == "u" && !(isTerminal s.status))).length = 1 ∧
    resultOk (startMintSession exPayStore "u" "DUSER" 1000 "s2" 100).1 = true ∧
    ((startMintSession exPayStore "u" "DUSER" 1000 "s2" 100).2.sessions.filter
        (fun s => s.userId == "u" && !(isTerminal s.status))).length = 2 := by
  decide

/-- C2 amended: `start` rejects with Conflict exactly when the identity
already has a session in PENDING, GENERATING or AWAITING_PAYMENT whose
expiry lies in the future (`blocksNewStart`); a successful `start`
implies no such session existed and leaves the identity with exactly one
of them. Sessions in PAYMENT_RECEIVED or INSCRIBING, and expired
non-terminal sessions, do not block a new start, so the broader
one-non-terminal-session-per-identity invariant is not enforced. -/
theorem startConflictIffActiveSession (st : Store) (u da : String) (now : Nat)
    (nsid : String) (p : Nat) :
    ((startMintSession st u da now nsid p).1
        = .error (.conflict "You already have an active minting session")
      ↔ ∃ s, s ∈ st.sessions ∧ blocksNewStart u now s = true) ∧
    (resultOk (startMintSession st u da now nsid p).1 = true →
      (st.sessions.filter (blocksNewStart u now)).length = 0 ∧
      ((startMintSession st u da now nsid p).2.sessions.filter
          (blocksNewStart u now)).length = 1) := by
  by_cases hex : (st.sessions.find? (blocksNewStart u now)).isSome
  · constructor
    · constructor
      · intro _
        exact List.find?_isSome.mp hex
      · intro _
        simp [startMintSession, hex]
    · intro hok
      exfalso
      simp [startMintSession, hex, resultOk] at hok
  · have hnone : st.sessions.find? (blocksNewStart u now) = none :=
      Option.not_isSome_iff_eq_none.mp hex
    have hfil : st.sessions.filter (blocksNewStart u now) = [] := by
      rw [List.filter_eq_nil_iff]
      exact fun a ha => List.find?_eq_none.mp hnone a ha
    constructor
    · constructor
      · intro h
        exfalso
        rcases hg : getNextTokenId st.counter with ⟨e, c1⟩
        cases e with
        | error m => simp [startMintSession, hex, hg] at h
        | ok o =>
          cases o with
          | none => simp [startMintSession, hex, hg] at h
          | some tid => simp [startMintSession, hex, hg] at h
      · intro hexists
        exfalso
        obtain ⟨s, hs, hb⟩ := hexists
        have h := List.find?_eq_none.mp hnone s hs
        simp [hb] at h
    · intro hok
      refine ⟨by simp [hfil], ?_⟩
      rcases hg : getNextTokenId st.counter with ⟨e, c1⟩
      cases e with
      | error m => simp [startMintSession, hex, hg, resultOk] at hok
      | ok o =>
        cases o with
        | none => simp [startMintSession, hex, hg, resultOk] at hok
        | some tid =>
          simp only [startMintSession, hex, hg, Bool.false_eq_true, if_false]
          simp [addLog, List.filter_append, hfil, blocksNewStart, newSessionRow,
            SESSION_EXPIRY_MS]

/-- Closed instance of `startConflictIffActiveSession` at the
PAYMENT_RECEIVED fixture. -/
theorem startConflictIffActiveSessionWitness :
    ((startMintSession exPayStore "u" "DUSER" 1000 "s2" 100).1
        = .error (.conflict "You already have an active minting session")
      ↔ ∃ s, s ∈ exPayStore.sessions ∧ blocksNewStart "u" 1000 s = true) ∧
    (resultOk (startMintSession exPayStore "u" "DUSER" 1000 "s2" 100).1 = true →
      (exPayStore.sessions.filter (blocksNewStart "u" 1000)).length = 0 ∧
      ((startMintSession exPayStore "u" "DUSER" 1000 "s2" 100).2.sessions.filter
          (blocksNewStart "u" 1000)).length = 1) :=
  startConflictIffActiveSession exPayStore "u" "DUSER" 1000 "s2" 100

end Cyphers

namespace Cyphers

/-- C3 counterexample: on an expired non-terminal (PENDING) session,
`getStatus` does not return a SessionSummary at all: the call rejects
with BadRequest. -/
theorem expiredGetStatusRejectsInsteadOfReturning :
    isTerminal exPendingSession.status = false ∧
    exPendingSession.expiresAt < 2000 ∧
    (getSessionStatus exPendingStore "s1" 2000).1
      = .error (.badRequest "Minting session has expired") := by
  decide

/-- C3 amended: on a session whose `expiresAt` has passed and whose
`completedAt` is unset (true of every non-terminal session, since only
`finalizeMint` sets `completedAt`), `getStatus` first rewrites the row to
the terminal FAILED state ("Session expired" / "Session timed out") and
then rejects with BadRequest instead of returning a summary; every
subsequent `getStatus` call rejects with the same error and leaves the
store fixed, so the session stays terminally FAILED. -/
theorem expiredGetStatusMarksFailedAndRejects (st : Store) (sid : String) (now : Nat)
    (s : MintSession) (hfind : findSession st sid = some s)
    (hexp : s.expiresAt < now) (hnc : s.completedAt = none) :
    (getSessionStatus st sid now).1
      = .error (.badRequest "Minting session has expired") ∧
    (∃ s2, findSession (getSessionStatus st sid now).2 sid = some s2 ∧
      s2.status = .FAILED ∧ s2.statusMessage = some "Session expired" ∧
      s2.errorMessage = some "Session timed out" ∧ isTerminal s2.status = true) ∧
    getSessionStatus (getSessionStatus st sid now).2 sid now
      = (.error (.badRequest "Minting session has expired"),
         (getSessionStatus st sid now).2) := by
  have hg1 : getSessionStatus st sid now
      = (.error (.badRequest "Minting session has expired"),
         setSession st sid expirePatch) := by
    unfold getSessionStatus
    simp only [hfind]
    rw [if_pos (show s.expiresAt < now ∧ s.completedAt = none from ⟨hexp, hnc⟩)]
  have hfind2 : findSession (setSession st sid expirePatch) sid
      = some (expirePatch s) := by
    rw [findSession_setSession st sid expirePatch (fun x => rfl), hfind, Option.map_some']
  have hidem := setSession_idem st sid expirePatch (fun x => rfl) (fun x => rfl)
  refine ⟨by rw [hg1], ⟨expirePatch s, ?_, rfl, rfl, rfl, rfl⟩, ?_⟩
  · rw [hg1]
    exact hfind2
  · rw [hg1]
    show getSessionStatus (setSession st sid expirePatch) sid now = _
    unfold getSessionStatus
    simp only [hfind2]
    rw [if_pos (show (expirePatch s).expiresAt < now ∧ (expirePatch s).completedAt = none
      from ⟨hexp, hnc⟩)]
    rw [hidem]

/-- Closed instance of `expiredGetStatusMarksFailedAndRejects` at the
expired PENDING fixture. -/
theorem expiredGetStatusMarksFailedAndRejectsWitness :
    (getSessionStatus exPendingStore "s1" 2000).1
      = .error (.badRequest "Minting session has expired") ∧
    (∃ s2, findSession (getSessionStatus exPendingStore "s1" 2000).2 "s1" = some s2 ∧
      s2.status = .FAILED ∧ s2.statusMessage = some "Session expired" ∧
      s2.errorMessage = some "Session timed out" ∧ isTerminal s2.status = true) ∧
    getSessionStatus (getSessionStatus exPendingStore "s1" 2000).2 "s1" 2000
      = (.error (.badRequest "Minting session has expired"),
         (getSessionStatus exPendingStore "s1" 2000).2) :=
  expiredGetStatusMarksFailedAndRejects exPendingStore "s1" 2000 exPendingSession
    (by decide) (by decide) (by decide)

end Cyphers

namespace Cyphers

/-- C4 counterexample: `cancel` on a terminal (GENERATION_FAILED) session
succeeds and rewrites its status and message, so terminal sessions are
not immutable. -/
theorem cancelMutatesTerminalSession :
    isTerminal exGenFailedSession.status = true ∧
    resultOk (cancelSession exGenFailedStore "s1" "u").1 = true ∧
    findSession (cancelSession exGenFailedStore "s1" "u").2 "s1"
      = some (cancelPatch exGenFailedSession) ∧
    cancelPatch exGenFailedSession ≠ exGenFailedSession := by
  decide

/-- C4 amended: only CONFIRMED sessions with `completedAt` set (the state
`finalizeMint` produces) are immutable: `getStatus`, `confirmPayment` and
`cancel` leave the whole store unchanged on them (the latter two
rejecting), and `start` keeps the stored row intact. Other terminal
sessions are not immutable: `cancel` rewrites GENERATION_FAILED /
INSCRIPTION_FAILED / FAILED sessions that carry no payment reference, and
`getStatus` rewrites expired terminal sessions whose `completedAt` is
unset. -/
theorem confirmedSessionImmutable (st : Store) (sid : String) (now : Nat)
    (u tx da nsid : String) (p : Nat) (s : MintSession)
    (hfind : findSession st sid = some s)
    (hst : s.status = .CONFIRMED) (hc : s.completedAt.isSome = true) :
    (getSessionStatus st sid now).2 = st ∧
    (processPaymentConfirmation st sid tx now).2 = st ∧
    (cancelSession st sid u).2 = st ∧
    resultOk (cancelSession st sid u).1 = false ∧
    s ∈ (startMintSession st u da now nsid p).2.sessions := by
  obtain ⟨t, ht⟩ := Option.isSome_iff_exists.mp hc
  have hs : s ∈ st.sessions := List.mem_of_find?_eq_some hfind
  refine ⟨?_, ?_, ?_, ?_, ?_⟩
  · unfold getSessionStatus
    simp only [hfind]
    rw [if_neg (fun h => by rw [ht] at h; exact Option.noConfusion h.2)]
  · unfold processPaymentConfirmation
    simp only [hfind]
    rw [if_pos (fun h => by rw [hst] at h; exact MintStatus.noConfusion h)]
  · unfold cancelSession
    simp only [hfind]
    by_cases hu : s.userId ≠ u
    · rw [if_pos hu]
    · rw [if_neg hu, if_pos hst]
  · unfold cancelSession
    simp only [hfind]
    by_cases hu : s.userId ≠ u
    · rw [if_pos hu]
      rfl
    · rw [if_neg hu, if_pos hst]
      rfl
  · unfold startMintSession
    by_cases hex : (st.sessions.find? (blocksNewStart u now)).isSome
    · rw [if_pos hex]
      exact hs
    · rw [if_neg hex]
      rcases hg : getNextTokenId st.counter with ⟨e, c1⟩
      cases e with
      | error m => exact hs
      | ok o =>
        cases o with
        | none => exact hs
        | some tid => simp [addLog, List.mem_append, hs]

/-- Closed instance of `confirmedSessionImmutable` at the CONFIRMED
fixture, even at a time past the session's `expiresAt`. -/
theorem confirmedSessionImmutableWitness :
    (getSessionStatus exConfirmedStore "s1" 5000).2 = exConfirmedStore ∧
    (processPaymentConfirmation exConfirmedStore "s1" "tx2" 5000).2 = exConfirmedStore ∧
    (cancelSession exConfirmedStore "s1" "u").2 = exConfirmedStore ∧
    resultOk (cancelSession exConfirmedStore "s1" "u").1 = false ∧
    exConfirmedSession
      ∈ (startMintSession exConfirmedStore "u" "DUSER" 5000 "s9" 100).2.sessions :=
  confirmedSessionImmutable exConfirmedStore "s1" 5000 "u" "tx2" "DUSER" "s9" 100
    exConfirmedSession (by decide) (by decide) (by decide)

end Cyphers

namespace Cyphers

/-- C5: a `confirmPayment` call on a missing session, on a session not in
AWAITING_PAYMENT, or on a session without a linked NFT rejects with a
client error and leaves the whole store, sessions, NFT rows, counter and
logs alike, unchanged. -/
theorem paymentRejectionLeavesStateUnchanged (st : Store) (sid tx : String) (now : Nat) :
    (findSession st sid = none →
      processPaymentConfirmation st sid tx now
        = (.error (.notFound "Minting session not found"), st)) ∧
    (∀ s, findSession st sid = some s → s.status ≠ .AWAITING_PAYMENT →
      processPaymentConfirmation st sid tx now
        = (.error (.badRequest ("Invalid session status: " ++ statusName s.status)), st)) ∧
    (∀ s, findSession st sid = some s → linkedCypher st s = none →
      isClientError (processPaymentConfirmation st sid tx now).1 = true ∧
      (processPaymentConfirmation st sid tx now).2 = st) := by
  refine ⟨?_, ?_, ?_⟩
  · intro h
    unfold processPaymentConfirmation
    rw [h]
  · intro s hfind hstatus
    unfold processPaymentConfirmation
    simp only [hfind]
    rw [if_pos hstatus]
  · intro s hfind hlink
    unfold processPaymentConfirmation
    simp only [hfind]
    by_cases hstatus : s.status ≠ MintStatus.AWAITING_PAYMENT
    · rw [if_pos hstatus]
      exact ⟨rfl, rfl⟩
    · rw [if_neg hstatus]
      simp only [hlink]
      exact ⟨rfl, trivial⟩

/-- Closed instance of `paymentRejectionLeavesStateUnchanged`: confirming
payment on a PAYMENT_RECEIVED session rejects and changes nothing. -/
theorem paymentRejectionLeavesStateUnchangedWitness :
    processPaymentConfirmation exPayStore "s1" "txZ" 600
      = (.error (.badRequest ("Invalid session status: "
          ++ statusName MintStatus.PAYMENT_RECEIVED)), exPayStore) :=
  (paymentRejectionLeavesStateUnchanged exPayStore "s1" "txZ" 600).2.1
    exPaySession (by decide) (by decide)

/-- C6: on an existing session, `cancel` rejects when the caller is not
the owner, rejects when the session is CONFIRMED, rejects when a
(non-empty) payment reference has been recorded, and in every other case
sets the session to FAILED with the cancelled message; every rejection
leaves the store unchanged. -/
theorem cancelAuthorizationCases (st : Store) (sid u : String) (s : MintSession)
    (hfind : findSession st sid = some s) :
    (s.userId ≠ u →
      cancelSession st sid u
        = (.error (.badRequest "Not authorized to cancel this session"), st)) ∧
    (s.userId = u → s.status = .CONFIRMED →
      cancelSession st sid u
        = (.error (.badRequest "Cannot cancel a completed mint"), st)) ∧
    (∀ h, s.userId = u → s.status ≠ .CONFIRMED → s.paymentTxHash = some h → h ≠ "" →
      cancelSession st sid u
        = (.error (.badRequest "Cannot cancel after payment - contact support"), st)) ∧
    (s.userId = u → s.status ≠ .CONFIRMED → s.paymentTxHash = none →
      cancelSession st sid u = (.ok (), setSession st sid cancelPatch) ∧
      findSession (cancelSession st sid u).2 sid = some (cancelPatch s) ∧
      (cancelPatch s).status = .FAILED ∧
      (cancelPatch s).statusMessage = some "Cancelled by user") := by
  refine ⟨?_, ?_, ?_, ?_⟩
  · intro hu
    unfold cancelSession
    simp only [hfind]
    rw [if_pos hu]
  · intro hu hc
    unfold cancelSession
    simp only [hfind]
    rw [if_neg (fun hne2 => hne2 hu), if_pos hc]
  · intro h hu hc hp hne
    have hj : jsTruthy s.paymentTxHash = true := by
      rw [hp]
      simp [jsTruthy, hne]
    unfold cancelSession
    simp only [hfind]
    rw [if_neg (fun hne2 => hne2 hu), if_neg hc, if_pos hj]
  · intro hu hc hp
    have hj : jsTruthy s.paymentTxHash = false := by
      rw [hp]
      rfl
    have hres : cancelSession st sid u = (.ok (), setSession st sid cancelPatch) := by
      unfold cancelSession
      simp only [hfind]
      rw [if_neg (fun hne2 => hne2 hu), if_neg hc, if_neg (by simp [hj])]
    refine ⟨hres, ?_, rfl, rfl⟩
    rw [hres]
    show findSession (setSession st sid cancelPatch) sid = some (cancelPatch s)
    rw [findSession_setSession st sid cancelPatch (fun x => rfl), hfind, Option.map_some']

/-- Closed instance of `cancelAuthorizationCases`: cancelling after a
payment reference has been recorded rejects without mutation. -/
theorem cancelAuthorizationCasesWitness :
    cancelSession exPayStore "s1" "u"
      = (.error (.badRequest "Cannot cancel after payment - contact support"), exPayStore) :=
  (cancelAuthorizationCases exPayStore "s1" "u" exPaySession (by decide)).2.2.1
    "txabcdef1234" (by decide) (by decide) (by decide) (by decide)

end Cyphers

namespace Cyphers

/-- Splitting the CONFIRMED NFT rows by rarity tier partitions them: the
four per-tier counts sum to the total count of CONFIRMED rows. -/
theorem tierSum (l : List CypherNFT) :
    (l.filter (fun c => c.status == MintStatus.CONFIRMED
        && c.rarityTier == RarityTier.LEGENDARY)).length
      + (l.filter (fun c => c.status == MintStatus.CONFIRMED
        && c.rarityTier == RarityTier.EPIC)).length
      + (l.filter (fun c => c.status == MintStatus.CONFIRMED
        && c.rarityTier == RarityTier.RARE)).length
      + (l.filter (fun c => c.status == MintStatus.CONFIRMED
        && c.rarityTier == RarityTier.COMMON)).length
      = (l.filter (fun c => c.status == MintStatus.CONFIRMED)).length := by
  induction l with
  | nil => rfl
  | cons a l ih =>
    by_cases hs : a.status = MintStatus.CONFIRMED
    · cases ha : a.rarityTier with
      | LEGENDARY =>
        rw [List.filter_cons_of_pos (by rw [hs, ha]; decide),
          List.filter_cons_of_neg (by rw [hs, ha]; decide),
          List.filter_cons_of_neg (by rw [hs, ha]; decide),
          List.filter_cons_of_neg (by rw [hs, ha]; decide),
          List.filter_cons_of_pos (by rw [hs]; decide)]
        simp only [List.length_cons]
        omega
      | EPIC =>
        rw [List.filter_cons_of_neg (by rw [hs, ha]; decide),
          List.filter_cons_of_pos (by rw [hs, ha]; decide),
          List.filter_cons_of_neg (by rw [hs, ha]; decide),
          List.filter_cons_of_neg (by rw [hs, ha]; decide),
          List.filter_cons_of_pos (by rw [hs]; decide)]
        simp only [List.length_cons]
        omega
      | RARE =>
        rw [List.filter_cons_of_neg (by rw [hs, ha]; decide),
          List.filter_cons_of_neg (by rw [hs, ha]; decide),
          List.filter_cons_of_pos (by rw [hs, ha]; decide),
          List.filter_cons_of_neg (by rw [hs, ha]; decide),
          List.filter_cons_of_pos (by rw [hs]; decide)]
        simp only [List.length_cons]
        omega
      | COMMON =>
        rw [List.filter_cons_of_neg (by rw [hs, ha]; decide),
          List.filter_cons_of_neg (by rw [hs, ha]; decide),
          List.filter_cons_of_neg (by rw [hs, ha]; decide),
          List.filter_cons_of_pos (by rw [hs, ha]; decide),
          List.filter_cons_of_pos (by rw [hs]; decide)]
        simp only [List.length_cons]
        omega
    · have hT : (a.status == MintStatus.CONFIRMED) = false := by
        simp only [beq_eq_false_iff_ne]
        exact hs
      rw [List.filter_cons_of_neg (by rw [hT]; simp),
        List.filter_cons_of_neg (by rw [hT]; simp),
        List.filter_cons_of_neg (by rw [hT]; simp),
        List.filter_cons_of_neg (by rw [hT]; simp),
        List.filter_cons_of_neg (by rw [hT]; simp)]
      exact ih

/-- C7 counterexample: with exactly one CONFIRMED artifact but three
allocated tokens, `stats` returns `totalMinted = 3`, not 1 (the tier
breakdown does still sum to 1). -/
theorem statsTotalMintedNotConfirmedCount :
    (exStatsStore.cyphers.filter
        (fun cy => cy.status == MintStatus.CONFIRMED)).length = 1 ∧
    (getMintStats exStatsStore 1000).totalMinted = 3 ∧
    (getMintStats exStatsStore 1000).legendary + (getMintStats exStatsStore 1000).epic
        + (getMintStats exStatsStore 1000).rare
        + (getMintStats exStatsStore 1000).common = 1 ∧
    (3 : Nat) ≠ 1 := by
  decide

/-- C7 amended: `stats` reports `totalMinted` as the counter's
`lastTokenId`, the number of tokens allocated so far (including tokens of
failed sessions), not the number of CONFIRMED artifacts, while the
`byRarityTier` breakdown does sum to the number N of CONFIRMED artifacts;
the two coincide only when every allocated token's artifact is
confirmed. -/
theorem statsTotalAndTierSum (st : Store) (cfg : Nat) (c : TokenCounter)
    (hc : st.counter = some c) :
    (getMintStats st cfg).totalMinted = c.lastTokenId ∧
    (getMintStats st cfg).legendary + (getMintStats st cfg).epic
        + (getMintStats st cfg).rare + (getMintStats st cfg).common
      = (st.cyphers.filter (fun cy => cy.status == MintStatus.CONFIRMED)).length := by
  constructor
  · simp only [getMintStats, hc]
  · simp only [getMintStats, hc, countConfirmedTier]
    exact tierSum st.cyphers

/-- Closed instance of `statsTotalAndTierSum` at the three-allocations,
one-confirmed store. -/
theorem statsTotalAndTierSumWitness :
    (getMintStats exStatsStore 1000).totalMinted = 3 ∧
    (getMintStats exStatsStore 1000).legendary + (getMintStats exStatsStore 1000).epic
        + (getMintStats exStatsStore 1000).rare + (getMintStats exStatsStore 1000).common
      = (exStatsStore.cyphers.filter
          (fun cy => cy.status == MintStatus.CONFIRMED)).length :=
  statsTotalAndTierSum exStatsStore 1000 { lastTokenId := 3, maxSupply := 1000 } (by decide)

end Cyphers

namespace Cyphers

/-- Changing only the NFT table leaves session lookup untouched. -/
theorem findSession_cyphersChange (st : Store) (cs : List CypherNFT) (sid : String) :
    findSession { st with cyphers := cs } sid = findSession st sid := rfl

/-- Appending a log row leaves session lookup untouched. -/
theorem findSession_addLog (st : Store) (sid k m : String) :
    findSession (addLog st k m) sid = findSession st sid := rfl

/-- C8: on an existing session, when the generator call succeeds the
generation step appends a new NFT row in AWAITING_PAYMENT carrying the
reserved token id and the generated traits, and rewrites the session with
the NFT id, status AWAITING_PAYMENT, a payment address and progress 50;
when the generator call fails it rewrites the session to
GENERATION_FAILED with the captured error message and creates no NFT
row. -/
theorem generationStepOutcomes (st : Store) (sid : String) (tid : Nat)
    (owner cyId payAddr e : String) (r : GenResult) (s : MintSession)
    (hfind : findSession st sid = some s) :
    ((processGeneration st sid tid owner (.ok r) cyId payAddr).cyphers
        = st.cyphers ++ [mkGeneratedCypher cyId tid owner r] ∧
      (mkGeneratedCypher cyId tid owner r).status = .AWAITING_PAYMENT ∧
      (mkGeneratedCypher cyId tid owner r).tokenId = tid ∧
      (mkGeneratedCypher cyId tid owner r).rarityTier = r.traits.rarityTier ∧
      (mkGeneratedCypher cyId tid owner r).rarityRole = r.traits.rarityRole ∧
      findSession (processGeneration st sid tid owner (.ok r) cyId payAddr) sid
        = some (genSuccessPatch cyId payAddr (generatingPatch s)) ∧
      (genSuccessPatch cyId payAddr (generatingPatch s)).status = .AWAITING_PAYMENT ∧
      (genSuccessPatch cyId payAddr (generatingPatch s)).cypherId = some cyId ∧
      (genSuccessPatch cyId payAddr (generatingPatch s)).paymentAddress = some payAddr ∧
      (genSuccessPatch cyId payAddr (generatingPatch s)).progress = 50) ∧
    (findSession (processGeneration st sid tid owner (.error e) cyId payAddr) sid
        = some (genFailedPatch e (generatingPatch s)) ∧
      (genFailedPatch e (generatingPatch s)).status = .GENERATION_FAILED ∧
      (genFailedPatch e (generatingPatch s)).errorMessage = some e ∧
      (processGeneration st sid tid owner (.error e) cyId payAddr).cyphers
        = st.cyphers) := by
  have hok : processGeneration st sid tid owner (.ok r) cyId payAddr
      = addLog (setSession
          { setSession st sid generatingPatch with
              cyphers := (setSession st sid generatingPatch).cyphers
                ++ [mkGeneratedCypher cyId tid owner r] }
          sid (genSuccessPatch cyId payAddr))
        sid ("Cypher generated: " ++ r.traits.rarityRole) := by
    unfold processGeneration
    rw [if_neg (by rw [hfind]; simp)]
  have herr : processGeneration st sid tid owner (.error e) cyId payAddr
      = setSession (setSession st sid generatingPatch) sid (genFailedPatch e) := by
    unfold processGeneration
    rw [if_neg (by rw [hfind]; simp)]
  refine ⟨⟨?_, rfl, rfl, rfl, rfl, ?_, rfl, rfl, rfl, rfl⟩, ?_, rfl, rfl, ?_⟩
  · rw [hok]
    rfl
  · rw [hok, findSession_addLog,
      findSession_setSession _ sid (genSuccessPatch cyId payAddr) (fun x => rfl),
      findSession_cyphersChange,
      findSession_setSession _ sid generatingPatch (fun x => rfl), hfind,
      Option.map_some', Option.map_some']
  · rw [herr,
      findSession_setSession _ sid (genFailedPatch e) (fun x => rfl),
      findSession_setSession _ sid generatingPatch (fun x => rfl), hfind,
      Option.map_some', Option.map_some']
  · rw [herr]
    rfl

/-- Closed instance of `generationStepOutcomes` at the PENDING fixture. -/
theorem generationStepOutcomesWitness :
    (processGeneration exPendingStore "s1" 1 "DUSER" (.ok exGenResult) "c9" "DPAY9").cyphers
        = exPendingStore.cyphers ++ [mkGeneratedCypher "c9" 1 "DUSER" exGenResult] ∧
    findSession (processGeneration exPendingStore "s1" 1 "DUSER"
        (.error "boom") "c9" "DPAY9") "s1"
      = some (genFailedPatch "boom" (generatingPatch exPendingSession)) :=
  ⟨(generationStepOutcomes exPendingStore "s1" 1 "DUSER" "c9" "DPAY9" "boom"
      exGenResult exPendingSession (by decide)).1.1,
   (generationStepOutcomes exPendingStore "s1" 1 "DUSER" "c9" "DPAY9" "boom"
      exGenResult exPendingSession (by decide)).2.1⟩

end Cyphers

namespace Cyphers

/-- C9: a successful `start` answers with progress 5 while the session
row it persists has progress 0, so a `getStatus` issued before the
background generation task's first update reports progress 0, strictly
below the value the start response carried for the same session. -/
theorem startProgressMismatch (st : Store) (u da : String) (now : Nat)
    (nsid : String) (p : Nat)
    (hfresh : ∀ s ∈ st.sessions, (s.sessionId == nsid) = false)
    (hok : resultOk (startMintSession st u da now nsid p).1 = true) :
    ∃ resp st2, startMintSession st u da now nsid p = (.ok resp, st2) ∧
      resp.progress = 5 ∧
      (∃ s, findSession st2 nsid = some s ∧ s.progress = 0) ∧
      (∃ r2, (getSessionStatus st2 nsid now).1 = .ok r2 ∧ r2.progress = 0 ∧
        r2.progress < resp.progress) := by
  by_cases hex : (st.sessions.find? (blocksNewStart u now)).isSome
  · exfalso
    simp [startMintSession, hex, resultOk] at hok
  · rcases hg : getNextTokenId st.counter with ⟨e, c1⟩
    cases e with
    | error m =>
      exfalso
      simp [startMintSession, hex, hg, resultOk] at hok
    | ok o =>
      cases o with
      | none =>
        exfalso
        simp [startMintSession, hex, hg, resultOk] at hok
      | some tid =>
        have hstart : startMintSession st u da now nsid p
            = (.ok (startResponse nsid (now + SESSION_EXPIRY_MS)),
               addLog
                 { st with
                     counter := c1
                     sessions := st.sessions
                       ++ [newSessionRow nsid u da p tid (now + SESSION_EXPIRY_MS)] }
                 nsid ("Mint session started for token #" ++ toString tid)) := by
          unfold startMintSession
          rw [if_neg hex, hg]
        have hfind2 : findSession
            (addLog
              { st with
                  counter := c1
                  sessions := st.sessions
                    ++ [newSessionRow nsid u da p tid (now + SESSION_EXPIRY_MS)] }
              nsid ("Mint session started for token #" ++ toString tid)) nsid
            = some (newSessionRow nsid u da p tid (now + SESSION_EXPIRY_MS)) := by
          rw [findSession_addLog]
          unfold findSession
          rw [List.find?_append,
            List.find?_eq_none.mpr (fun x hx => by rw [hfresh x hx]; simp),
            Option.none_or]
          simp [newSessionRow]
        refine ⟨startResponse nsid (now + SESSION_EXPIRY_MS), _, hstart, rfl,
          ⟨newSessionRow nsid u da p tid (now + SESSION_EXPIRY_MS), hfind2, rfl⟩, ?_⟩
        refine ⟨sessionResponse (newSessionRow nsid u da p tid (now + SESSION_EXPIRY_MS))
          (linkedCypher
            (addLog
              { st with
                  counter := c1
                  sessions := st.sessions
                    ++ [newSessionRow nsid u da p tid (now + SESSION_EXPIRY_MS)] }
              nsid ("Mint session started for token #" ++ toString tid))
            (newSessionRow nsid u da p tid (now + SESSION_EXPIRY_MS))), ?_, rfl,
          by simp [sessionResponse, startResponse, newSessionRow]⟩
        unfold getSessionStatus
        simp only [hfind2]
        rw [if_neg (fun h => by
          have h1 := h.1
          simp only [newSessionRow, SESSION_EXPIRY_MS] at h1
          omega)]

/-- Closed instance of `startProgressMismatch` on the fresh store. -/
theorem startProgressMismatchWitness :
    ∃ resp st2, startMintSession exFreshStore "u" "DUSER" 0 "s7" 100 = (.ok resp, st2) ∧
      resp.progress = 5 ∧
      (∃ s, findSession st2 "s7" = some s ∧ s.progress = 0) ∧
      (∃ r2, (getSessionStatus st2 "s7" 0).1 = .ok r2 ∧ r2.progress = 0 ∧
        r2.progress < resp.progress) :=
  startProgressMismatch exFreshStore "u" "DUSER" 0 "s7" 100 (by decide) (by decide)

/-- C10: with no TokenCounter row, the allocator throws "Token counter
not initialized" rather than returning the sold-out sentinel, and `start`
(absent a conflicting session) propagates it as a fatal error distinct
from the sold-out BadRequest while creating no session: the store is
returned unchanged. -/
theorem missingCounterFatal (st : Store) (u da : String) (now : Nat)
    (nsid : String) (p : Nat) (hc : st.counter = none)
    (hna : st.sessions.find? (blocksNewStart u now) = none) :
    getNextTokenId st.counter = (.error "Token counter not initialized", none) ∧
    startMintSession st u da now nsid p
      = (.error (.fatal "Token counter not initialized"), st) ∧
    (∀ m, (ApiError.fatal "Token counter not initialized") ≠ ApiError.badRequest m) := by
  refine ⟨by rw [hc]; rfl, ?_, fun m h => ApiError.noConfusion h⟩
  unfold startMintSession
  rw [if_neg (by rw [hna]; simp), hc]
  rfl

/-- Closed instance of `missingCounterFatal` on the counterless store. -/
theorem missingCounterFatalWitness :
    getNextTokenId exNoCounterStore.counter
        = (.error "Token counter not initialized", none) ∧
    startMintSession exNoCounterStore "u" "DUSER" 0 "s8" 100
      = (.error (.fatal "Token counter not initialized"), exNoCounterStore) :=
  ⟨(missingCounterFatal exNoCounterStore "u" "DUSER" 0 "s8" 100 (by decide) (by decide)).1,
   (missingCounterFatal exNoCounterStore "u" "DUSER" 0 "s8" 100
     (by decide) (by decide)).2.1⟩

end Cyphers
